import Mathlib

/-
Verification of the fang task-queue persistence core (src/postgres.rs)
against its natural-language specification.

The source file defines three operations on a Postgres-backed task table:
`Postgres::new` (connection bootstrap), `Postgres::insert` (create a task
row from a `NewTask`) and `Postgres::fetch_task` (the claim-next query:
`SELECT ... ORDER BY created_at ASC LIMIT 1 FOR UPDATE`).

The embedding below models the durable table as a list of task rows
together with the id-generation counter and the store clock.  Timestamps
and ids are natural numbers; the opaque JSON metadata payload is an
opaque string (the core never inspects it).  The diesel `get_result`
outcome is modelled as an `Except` value so that the error-propagation
behaviour of the Rust `match` arms can be stated exactly.
-/

namespace Fang

/-
Lifecycle states.  The source's `schema.rs` is not part of the file; the
spec names the initial state `Pending` while the source test asserts
`FangTaskState::New` for a freshly inserted row.  We use the spec's names;
`pending` is the initial (newly created, unclaimed) state.
-/
inductive FangTaskState
  | pending
  | inProgress
  | finished
  | failed
  deriving DecidableEq, Repr

/-
A task row, mirroring `struct Task` in src/postgres.rs: id, metadata,
error_message, state, created_at, updated_at.
-/
structure Task where
  id : Nat
  metadata : String
  error_message : Option String
  state : FangTaskState
  created_at : Nat
  updated_at : Nat
  deriving DecidableEq, Repr

/- Mirrors `struct NewTask`: the producer supplies only the metadata. -/
structure NewTask where
  metadata : String
  deriving DecidableEq, Repr

/-
The durable store: the `fang_tasks` table contents, the id-generation
source, and the current clock used for generated timestamps.
-/
structure Store where
  tasks : List Task
  nextId : Nat
  now : Nat
  deriving DecidableEq, Repr

def emptyStore : Store :=
  { tasks := [], nextId := 0, now := 0 }

/-
Backend/query failures as diesel surfaces them to `get_result`:
`notFound` is the empty-result case of a LIMIT 1 query; the others are
genuine storage failures (connectivity loss, constraint violation,
backend conflict).
-/
inductive QueryError
  | notFound
  | connectivity
  | constraintViolation
  | deadlock
  deriving DecidableEq, Repr

/-
Helper used to evaluate `ORDER BY created_at ASC LIMIT 1`: keep the row
with the smaller created_at, preferring the accumulator on ties.
-/
def olderTask (a b : Task) : Task :=
  if b.created_at < a.created_at then b else a

namespace Postgres

/-
Embeds `Postgres::fetch_task`'s query on the table contents:
`fang_tasks.order(created_at.asc()).limit(1).for_update().get_result`.
The query has no filter on `state` — it scans the whole table.  This
function is one executable refinement of the query (on a tie of
created_at it returns the row that comes first in table order); the
relation `selectedBy` below captures exactly what the SQL contract
guarantees about the returned row.
-/
def fetch_task (s : Store) : Option Task :=
  match s.tasks with
  | [] => none
  | t :: ts => some (ts.foldl olderTask t)

end Postgres

/-
What the query `ORDER BY created_at ASC LIMIT 1` constrains the returned
row to be: a stored row whose created_at is minimal.  The query gives no
tie-break column, so among rows with equal created_at the backend may
return any of them; this relation is the faithful semantics of the
selection, of which `Postgres.fetch_task` is one deterministic refinement.
-/
def selectedBy (s : Store) (t : Task) : Prop :=
  t ∈ s.tasks ∧ ∀ u ∈ s.tasks, t.created_at ≤ u.created_at

instance instDecidableSelectedBy (s : Store) (t : Task) :
    Decidable (selectedBy s t) := by
  unfold selectedBy
  infer_instance

/-
Embeds the `match` at the end of `Postgres::fetch_task`: the diesel
result is mapped `Ok(record) => Some(record)`, and the wildcard arm
`_ => None` collapses every error — the not-found case and every real
storage failure alike — into `None`.
-/
def fetch_task_of_result (r : Except QueryError Task) : Option Task :=
  match r with
  | Except.ok record => some record
  | _ => none

/-
The store effect of a `fetch_task` call: the query is a single SELECT
(with a FOR UPDATE lock annotation); it issues no INSERT or UPDATE, so
the table contents are returned unchanged alongside the fetched row.
-/
def fetch_task_step (s : Store) : Option Task × Store :=
  (Postgres.fetch_task s, s)

theorem olderTask_le_left (a b : Task) :
    (olderTask a b).created_at ≤ a.created_at := by
  unfold olderTask
  by_cases h : b.created_at < a.created_at
  · simp [h]
    exact Nat.le_of_lt h
  · simp [h]

theorem olderTask_le_right (a b : Task) :
    (olderTask a b).created_at ≤ b.created_at := by
  unfold olderTask
  by_cases h : b.created_at < a.created_at
  · simp [h]
  · simp [h]
    exact Nat.le_of_not_lt h

theorem olderTask_cases (a b : Task) :
    olderTask a b = a ∨ olderTask a b = b := by
  unfold olderTask
  by_cases h : b.created_at < a.created_at
  · right
    simp [h]
  · left
    simp [h]

theorem foldl_olderTask_mem (ts : List Task) (t : Task) :
    ts.foldl olderTask t = t ∨ ts.foldl olderTask t ∈ ts := by
  induction ts generalizing t with
  | nil => exact Or.inl rfl
  | cons u us ih =>
    simp only [List.foldl_cons]
    rcases ih (olderTask t u) with h | h
    · rcases olderTask_cases t u with hc | hc
      · exact Or.inl (h.trans hc)
      · refine Or.inr ?_
        rw [h, hc]
        exact List.mem_cons_self u us
    · exact Or.inr (List.mem_cons_of_mem u h)

theorem foldl_olderTask_le_init (ts : List Task) (t : Task) :
    (ts.foldl olderTask t).created_at ≤ t.created_at := by
  induction ts generalizing t with
  | nil => exact Nat.le_refl _
  | cons u us ih =>
    simp only [List.foldl_cons]
    exact Nat.le_trans (ih (olderTask t u)) (olderTask_le_left t u)

theorem foldl_olderTask_le_mem (ts : List Task) (t : Task) :
    ∀ u ∈ ts, (ts.foldl olderTask t).created_at ≤ u.created_at := by
  induction ts generalizing t with
  | nil =>
    intro u hu
    exact absurd hu (List.not_mem_nil u)
  | cons v vs ih =>
    intro u hu
    simp only [List.foldl_cons]
    rcases List.mem_cons.mp hu with h | h
    · subst h
      exact Nat.le_trans (foldl_olderTask_le_init vs (olderTask t u))
        (olderTask_le_right t u)
    · exact ih (olderTask t v) u h

/-
Any row returned by `fetch_task` is a stored row with minimal
created_at — it satisfies the query contract `selectedBy`.
-/
theorem fetch_task_selects (s : Store) (t : Task)
    (h : Postgres.fetch_task s = some t) : selectedBy s t := by
  unfold Postgres.fetch_task at h
  cases hs : s.tasks with
  | nil =>
    rw [hs] at h
    exact absurd h (by simp)
  | cons a as =>
    rw [hs] at h
    simp only [Option.some.injEq] at h
    subst h
    constructor
    · rw [hs]
      rcases foldl_olderTask_mem as a with h | h
      · rw [h]
        exact List.mem_cons_self a as
      · exact List.mem_cons_of_mem a h
    · intro u hu
      rw [hs] at hu
      rcases List.mem_cons.mp hu with h | h
      · subst h
        exact foldl_olderTask_le_init as u
      · exact foldl_olderTask_le_mem as a u h

theorem fetch_task_none_iff (s : Store) :
    Postgres.fetch_task s = none ↔ s.tasks = [] := by
  unfold Postgres.fetch_task
  cases s.tasks with
  | nil => simp
  | cons a as => simp

/-- Modelled from the spec: the column defaults applied on insertion (the
generated id, the creation timestamp, the initial state and the absent
error message) live in the database schema and migrations, which are not
part of the source file; `Postgres::insert` itself only supplies the
metadata of the `NewTask` and reads the inserted row back.  Per the spec,
insertion assigns a fresh identity and a creation timestamp and persists
the row in the initial state with no error message. -/
def insertRow (s : Store) (params : NewTask) : Task × Store :=
  let t : Task :=
    { id := s.nextId
      metadata := params.metadata
      error_message := none
      state := FangTaskState.pending
      created_at := s.now
      updated_at := s.now }
  (t, { s with tasks := s.tasks ++ [t], nextId := s.nextId + 1 })

namespace Postgres

/-
Embeds `Postgres::insert`: `diesel::insert_into(fang_tasks::table)
.values(params).get_result::<Task>(...)`.  The diesel call either fails
with a backend error — which `insert` returns to the caller unchanged,
as its `Result<Task, Error>` type — or persists and returns the new row;
`dbOutcome` is the backend's verdict for this call.
-/
def insert (s : Store) (params : NewTask) (dbOutcome : Option QueryError) :
    Except QueryError (Task × Store) :=
  match dbOutcome with
  | some e => Except.error e
  | none => Except.ok (insertRow s params)

end Postgres

/-- Modelled from the spec: the lifecycle state machine of section 4.2 is
not implemented in the source file (there is no update-state operation in
src/); the allowed edges are exactly Pending to InProgress, InProgress to
Finished, and InProgress to Failed.  Finished and Failed are terminal. -/
def allowedTransition : FangTaskState → FangTaskState → Bool
  | FangTaskState.pending, FangTaskState.inProgress => true
  | FangTaskState.inProgress, FangTaskState.finished => true
  | FangTaskState.inProgress, FangTaskState.failed => true
  | _, _ => false

/-
Errors of the update-state operation: an illegal lifecycle transition, a
backend storage failure, or an unknown task identity.
-/
inductive UpdateError
  | invalidTransition
  | taskNotFound
  | storage (e : QueryError)
  deriving DecidableEq, Repr

/-
The row rewrite a successful update-state performs on the claimed task:
the new state, a refreshed updated_at, and (for the Failed target) the
supplied error message.
-/
def applyUpdate (target : FangTaskState) (msg : Option String) (now : Nat)
    (t : Task) : Task :=
  { t with
    state := target
    updated_at := now
    error_message := if target = FangTaskState.failed then msg else t.error_message }

/-
The table contents after a successful update-state on `taskId`: the
matching row is rewritten by `applyUpdate`, every other row is kept.
-/
def updatedTasks (s : Store) (taskId : Nat) (target : FangTaskState)
    (msg : Option String) : List Task :=
  s.tasks.map
    (fun u => if u.id == taskId then applyUpdate target msg s.now u else u)

/-- Modelled from the spec: no update-state operation exists in the source
file; per section 4.4, given a task identity, a target state and an
optional error message, it validates the transition against the state
machine of section 4.2, and on success persists the new state, a
refreshed updated_at and (for the Failed target) the error message. -/
def updateState (s : Store) (taskId : Nat) (target : FangTaskState)
    (msg : Option String) : Except UpdateError Store :=
  match s.tasks.find? (fun t => t.id == taskId) with
  | none => Except.error UpdateError.taskNotFound
  | some t =>
    if allowedTransition t.state target then
      Except.ok { s with tasks := updatedTasks s taskId target msg }
    else
      Except.error UpdateError.invalidTransition

/-
Outcome of `Postgres::new`: either a constructed store handle (carrying
the resolved database url) or a process abort.  The Rust signature is
`fn new(database_url: Option<String>) -> Self`: there is no error
constructor at all, because both failure paths go through `expect`,
which panics.
-/
inductive NewOutcome
  | ok (databaseUrl : String)
  | aborts (msg : String)
  deriving DecidableEq, Repr

namespace Postgres

/-
Embeds `Postgres::new`: resolve the url from the argument or, when the
argument is `None`, from the `DATABASE_URL` environment variable
(`env::var(..).expect("DATABASE_URL must be set")`); then establish the
connection (`PgConnection::establish(&url).expect(&format!("Error
connecting to {}", url))`).  `envDatabaseUrl` is the environment's value
of `DATABASE_URL` and `establishOk url` tells whether a connection to
`url` can be established.
-/
def new (databaseUrl : Option String) (envDatabaseUrl : Option String)
    (establishOk : String → Bool) : NewOutcome :=
  let url : Option String :=
    match databaseUrl with
    | some stringUrl => some stringUrl
    | none => envDatabaseUrl
  match url with
  | none => NewOutcome.aborts ("DATABASE_URL must be set")
  | some u =>
    if establishOk u then
      NewOutcome.ok u
    else
      NewOutcome.aborts ("Error connecting to " ++ u)

end Postgres

/-
Concrete fixtures used by counterexamples and witnesses.  `jsonX1` is
the spec's example metadata payload, the JSON text for the object with
key x and value 1.
-/
def jsonX1 : String := "\x7b\x22x\x22:1\x7d"

def tFinished : Task :=
  { id := 0
    metadata := "m0"
    error_message := none
    state := FangTaskState.finished
    created_at := 5
    updated_at := 5 }

def c1Store : Store :=
  { tasks := [tFinished], nextId := 1, now := 9 }

def tOld : Task :=
  { id := 1
    metadata := "a"
    error_message := none
    state := FangTaskState.pending
    created_at := 3
    updated_at := 3 }

def tNewer : Task :=
  { id := 2
    metadata := "b"
    error_message := none
    state := FangTaskState.pending
    created_at := 8
    updated_at := 8 }

def c2Store : Store :=
  { tasks := [tNewer, tOld], nextId := 3, now := 10 }

def tTieA : Task :=
  { id := 7
    metadata := "a"
    error_message := none
    state := FangTaskState.pending
    created_at := 4
    updated_at := 4 }

def tTieB : Task :=
  { id := 8
    metadata := "b"
    error_message := none
    state := FangTaskState.pending
    created_at := 4
    updated_at := 4 }

def c8Store : Store :=
  { tasks := [tTieA, tTieB], nextId := 9, now := 6 }

def c6Task : Task :=
  { id := 0
    metadata := jsonX1
    error_message := none
    state := FangTaskState.pending
    created_at := 0
    updated_at := 0 }

def c6Store2 : Store :=
  { tasks := [c6Task], nextId := 1, now := 0 }

/-- C1 counterexample: a store whose only task is in the terminal
Finished state; fetch_task returns that task even though its state is not
Pending, because the query has no filter on state — so tasks in other
lifecycle states can be returned, contrary to the claim. -/
theorem c1_counterexample :
    Postgres.fetch_task c1Store = some tFinished ∧
    tFinished.state ≠ FangTaskState.pending := by
  decide

/-- C1 (amended): fetch_task selects the task with the smallest
created_at among ALL stored tasks regardless of lifecycle state (the
query has no state filter), and returns an empty result — not an
error — exactly when the table holds no task at all. -/
theorem c1_fetch_task_scans_all_states (s : Store) :
    (Postgres.fetch_task s = none ↔ s.tasks = []) ∧
    ∀ t, Postgres.fetch_task s = some t →
      t ∈ s.tasks ∧ ∀ u ∈ s.tasks, t.created_at ≤ u.created_at := by
  refine ⟨fetch_task_none_iff s, ?_⟩
  intro t h
  exact fetch_task_selects s t h

/-- C1 witness: the amended contract applied to the concrete one-task
store. -/
theorem c1_fetch_task_scans_all_states_witness :
    tFinished ∈ c1Store.tasks ∧
    ∀ u ∈ c1Store.tasks, tFinished.created_at ≤ u.created_at :=
  (c1_fetch_task_scans_all_states c1Store).2 tFinished (by decide)

/-- C2: for a store holding exactly two tasks whose creation timestamps
are strictly ordered, fetch_task returns the older task — the oldest
eligible task is always offered first (FIFO). -/
theorem c2_fetch_task_fifo (s : Store) (a b : Task)
    (ha : a ∈ s.tasks) (_hb : b ∈ s.tasks)
    (honly : ∀ u ∈ s.tasks, u = a ∨ u = b)
    (hlt : a.created_at < b.created_at) :
    Postgres.fetch_task s = some a := by
  have hne : s.tasks ≠ [] := by
    intro h
    rw [h] at ha
    exact List.not_mem_nil a ha
  obtain ⟨t, ht⟩ : ∃ t, Postgres.fetch_task s = some t := by
    unfold Postgres.fetch_task
    cases hs : s.tasks with
    | nil => exact absurd hs hne
    | cons x xs => exact ⟨xs.foldl olderTask x, rfl⟩
  have hsel := fetch_task_selects s t ht
  rcases honly t hsel.1 with h | h
  · rw [ht, h]
  · exfalso
    have hle : t.created_at ≤ a.created_at := hsel.2 a ha
    rw [h] at hle
    exact absurd hle (Nat.not_le_of_lt hlt)

/-- C2 witness: the FIFO property applied to the concrete two-task store
whose older task is stored second. -/
theorem c2_fetch_task_fifo_witness :
    Postgres.fetch_task c2Store = some tOld :=
  c2_fetch_task_fifo c2Store tOld tNewer (by decide) (by decide) (by decide)
    (by decide)

/-- C4 counterexample: a backend connectivity failure reaching the
wildcard match arm of fetch_task is mapped to None — exactly the value
produced for the no-task-found result — so the StorageError is silently
swallowed, not surfaced, contrary to the claim. -/
theorem c4_counterexample :
    fetch_task_of_result (Except.error QueryError.connectivity) = none ∧
    fetch_task_of_result (Except.error QueryError.notFound) = none :=
  ⟨rfl, rfl⟩

/-- C4 (amended): fetch_task's return type is a bare Option with no
error channel: a successful query yields the row, and every other
backend outcome — absence and genuine storage errors alike — is
collapsed into None, so the caller cannot distinguish absence from
failure. -/
theorem c4_fetch_task_error_to_none :
    (∀ t : Task, fetch_task_of_result (Except.ok t) = some t) ∧
    (∀ e : QueryError, fetch_task_of_result (Except.error e) = none) :=
  ⟨fun _ => rfl, fun _ => rfl⟩

/-- C5 counterexample: inserting the spec's example payload into the
empty store and immediately fetching returns the task still in the
Pending state — fetch_task performs no state update, so the state has
not advanced to InProgress as the claim requires. -/
theorem c5_counterexample :
    Postgres.fetch_task (insertRow emptyStore { metadata := jsonX1 }).2 =
      some (insertRow emptyStore { metadata := jsonX1 }).1 ∧
    (insertRow emptyStore { metadata := jsonX1 }).1.state ≠
      FangTaskState.inProgress := by
  decide

/-- C5 (amended): for every metadata payload, inserting into the empty
store and immediately reading back via fetch_task yields the inserted
task with identical metadata and error_message none, and with state
still Pending (the claimed advance to InProgress does not happen, since
fetch_task issues no state update). -/
theorem c5_round_trip (m : String) :
    Postgres.fetch_task (insertRow emptyStore { metadata := m }).2 =
      some (insertRow emptyStore { metadata := m }).1 ∧
    (insertRow emptyStore { metadata := m }).1.metadata = m ∧
    (insertRow emptyStore { metadata := m }).1.error_message = none ∧
    (insertRow emptyStore { metadata := m }).1.state = FangTaskState.pending :=
  ⟨rfl, rfl, rfl, rfl⟩

/-- C6: when the backend succeeds, insert returns a fully populated
record carrying the supplied metadata, no error message, the initial
Pending state, the store clock as creation timestamp and a fresh id not
used by any stored task, and appends the row to the table preserving the
id-freshness invariant; when the backend fails, the error is returned to
the caller unchanged. -/
theorem c6_insert_contract (s : Store) (params : NewTask)
    (dbOutcome : Option QueryError)
    (hids : ∀ t ∈ s.tasks, t.id < s.nextId) :
    (∀ e, Postgres.insert s params dbOutcome = Except.error e →
      dbOutcome = some e) ∧
    (∀ t s2, Postgres.insert s params dbOutcome = Except.ok (t, s2) →
      t.metadata = params.metadata ∧
      t.error_message = none ∧
      t.state = FangTaskState.pending ∧
      t.created_at = s.now ∧
      t.updated_at = s.now ∧
      t.id = s.nextId ∧
      (∀ u ∈ s.tasks, u.id ≠ t.id) ∧
      s2.tasks = s.tasks ++ [t] ∧
      (∀ u ∈ s2.tasks, u.id < s2.nextId)) := by
  cases dbOutcome with
  | some e0 =>
    constructor
    · intro e h
      unfold Postgres.insert at h
      simp only [Except.error.injEq] at h
      rw [h]
    · intro t s2 h
      unfold Postgres.insert at h
      exact absurd h (by simp)
  | none =>
    constructor
    · intro e h
      unfold Postgres.insert at h
      exact absurd h (by simp)
    · intro t s2 h
      unfold Postgres.insert at h
      injection h with h2
      have hts : t = (insertRow s params).1 := by rw [h2]
      have hss : s2 = (insertRow s params).2 := by rw [h2]
      subst hts
      subst hss
      refine ⟨rfl, rfl, rfl, rfl, rfl, rfl, ?_, rfl, ?_⟩
      · intro u hu
        exact Nat.ne_of_lt (hids u hu)
      · intro u hu
        have hu2 : u ∈ s.tasks ++ [(insertRow s params).1] := hu
        rcases List.mem_append.mp hu2 with h3 | h3
        · exact Nat.lt_succ_of_lt (hids u h3)
        · have h4 : u = (insertRow s params).1 := List.mem_singleton.mp h3
          rw [h4]
          exact Nat.lt_succ_self _

/-- C6 witness: the insert contract applied to a successful insertion of
the spec's example payload into the empty store. -/
theorem c6_insert_contract_witness :
    c6Task.metadata = jsonX1 ∧
    c6Task.error_message = none ∧
    c6Task.state = FangTaskState.pending ∧
    c6Task.created_at = emptyStore.now ∧
    c6Task.updated_at = emptyStore.now ∧
    c6Task.id = emptyStore.nextId ∧
    (∀ u ∈ emptyStore.tasks, u.id ≠ c6Task.id) ∧
    c6Store2.tasks = emptyStore.tasks ++ [c6Task] ∧
    (∀ u ∈ c6Store2.tasks, u.id < c6Store2.nextId) :=
  (c6_insert_contract emptyStore { metadata := jsonX1 } none
    (by decide)).2 c6Task c6Store2 rfl

/-- C7: the lifecycle state machine as specified — any transition
attempted from a terminal state (Finished or Failed) fails with
InvalidTransition, the direct transition Pending to Finished fails with
InvalidTransition, and a legal transition persists the target state with
a refreshed updated_at and, for the Failed target, the error message. -/
theorem c7_update_state_contract (s : Store) (taskId : Nat)
    (target : FangTaskState) (msg : Option String) (t : Task)
    (hfind : s.tasks.find? (fun u => u.id == taskId) = some t) :
    ((t.state = FangTaskState.finished ∨ t.state = FangTaskState.failed) →
      updateState s taskId target msg =
        Except.error UpdateError.invalidTransition) ∧
    (t.state = FangTaskState.pending →
      updateState s taskId FangTaskState.finished msg =
        Except.error UpdateError.invalidTransition) ∧
    (allowedTransition t.state target = true →
      updateState s taskId target msg =
        Except.ok { s with tasks := updatedTasks s taskId target msg } ∧
      (applyUpdate target msg s.now t).state = target ∧
      (applyUpdate target msg s.now t).updated_at = s.now ∧
      (target = FangTaskState.failed →
        (applyUpdate target msg s.now t).error_message = msg)) := by
  refine ⟨?_, ?_, ?_⟩
  · intro hterm
    have hfalse : allowedTransition t.state target = false := by
      rcases hterm with h | h <;> rw [h] <;> cases target <;> rfl
    unfold updateState
    rw [hfind]
    simp [hfalse]
  · intro hp
    have hfalse : allowedTransition t.state FangTaskState.finished = false := by
      rw [hp]
      rfl
    unfold updateState
    rw [hfind]
    simp [hfalse]
  · intro hallowed
    refine ⟨?_, rfl, rfl, ?_⟩
    · unfold updateState
      rw [hfind]
      simp [hallowed]
    · intro hf
      unfold applyUpdate
      simp [hf]

/-- C7 witness: updating a task that is already in the terminal Finished
state fails with InvalidTransition. -/
theorem c7_update_state_contract_witness :
    updateState c1Store 0 FangTaskState.pending none =
      Except.error UpdateError.invalidTransition :=
  (c7_update_state_contract c1Store 0 FangTaskState.pending none tFinished
    rfl).1 (Or.inl rfl)

/-- C8 counterexample: two distinct stored tasks share created_at, and
both satisfy the selection contract of the query (ORDER BY created_at
ASC LIMIT 1 with no tie-break column), so the returned row among
equal-timestamp tasks is not determined by the code — selection is not
deterministic across calls, contrary to the claim. -/
theorem c8_counterexample :
    selectedBy c8Store tTieA ∧ selectedBy c8Store tTieB ∧ tTieA ≠ tTieB := by
  decide

/-- C8 (amended): the query orders only by created_at and has no
tie-break column, so the selection contract is symmetric between tasks
sharing a created_at: either may be returned, and stability across calls
is left to the backend rather than guaranteed by the code. -/
theorem c8_tie_symmetric (s : Store) (t u : Task)
    (ht : t ∈ s.tasks) (hu : u ∈ s.tasks)
    (heq : t.created_at = u.created_at) :
    selectedBy s t ↔ selectedBy s u := by
  constructor
  · intro h
    refine ⟨hu, ?_⟩
    intro v hv
    rw [← heq]
    exact h.2 v hv
  · intro h
    refine ⟨ht, ?_⟩
    intro v hv
    rw [heq]
    exact h.2 v hv

/-- C8 witness: the tie symmetry applied to the concrete equal-timestamp
pair. -/
theorem c8_tie_symmetric_witness :
    selectedBy c8Store tTieA ↔ selectedBy c8Store tTieB :=
  c8_tie_symmetric c8Store tTieA tTieB (by decide) (by decide) (by decide)

/-- C9: fetch_task writes nothing — the store after a fetch_task call is
exactly the store before it, and any returned task is a stored row that
a repeated fetch_task on the resulting store returns again, so a claimed
task whose transaction records no state change is immediately
re-eligible. -/
theorem c9_fetch_task_pure (s : Store) :
    (fetch_task_step s).2 = s ∧
    ∀ t, (fetch_task_step s).1 = some t →
      t ∈ (fetch_task_step s).2.tasks ∧
      Postgres.fetch_task (fetch_task_step s).2 = some t := by
  refine ⟨rfl, ?_⟩
  intro t h
  have h2 : Postgres.fetch_task s = some t := h
  exact ⟨(fetch_task_selects s t h2).1, h2⟩

/-- C9 witness: the frame property applied to the concrete two-task
store. -/
theorem c9_fetch_task_pure_witness :
    tOld ∈ (fetch_task_step c2Store).2.tasks ∧
    Postgres.fetch_task (fetch_task_step c2Store).2 = some tOld :=
  (c9_fetch_task_pure c2Store).2 tOld (by decide)

/-- C10: Postgres::new aborts the process (expect) when no url argument
is given and DATABASE_URL is unset, aborts with the connection-error
message when the resolved url cannot be connected to, and in every case
its outcome is a constructed value or an abort — construction never
returns a StorageError. -/
theorem c10_new_contract (env : Option String) (establishOk : String → Bool) :
    Postgres.new none none establishOk =
      NewOutcome.aborts ("DATABASE_URL must be set") ∧
    (∀ u, establishOk u = false →
      Postgres.new (some u) env establishOk =
        NewOutcome.aborts ("Error connecting to " ++ u)) ∧
    (∀ u, establishOk u = false →
      Postgres.new none (some u) establishOk =
        NewOutcome.aborts ("Error connecting to " ++ u)) ∧
    (∀ databaseUrl,
      (∃ u, Postgres.new databaseUrl env establishOk = NewOutcome.ok u) ∨
      (∃ m, Postgres.new databaseUrl env establishOk =
        NewOutcome.aborts m)) := by
  refine ⟨rfl, ?_, ?_, ?_⟩
  · intro u hu
    unfold Postgres.new
    simp [hu]
  · intro u hu
    unfold Postgres.new
    simp [hu]
  · intro databaseUrl
    unfold Postgres.new
    cases databaseUrl with
    | none =>
      cases env with
      | none => exact Or.inr ⟨_, rfl⟩
      | some u =>
        cases hu : establishOk u with
        | true => exact Or.inl ⟨u, by simp [hu]⟩
        | false => exact Or.inr ⟨"Error connecting to " ++ u, by simp [hu]⟩
    | some u =>
      cases hu : establishOk u with
      | true => exact Or.inl ⟨u, by simp [hu]⟩
      | false => exact Or.inr ⟨"Error connecting to " ++ u, by simp [hu]⟩

/-- C10 witness: construction with an unconnectable url aborts with the
connection-error message. -/
theorem c10_new_contract_witness :
    Postgres.new (some ("badurl")) none (fun _ => false) =
      NewOutcome.aborts ("Error connecting to " ++ "badurl") :=
  (c10_new_contract none (fun _ => false)).2.1 ("badurl") rfl

end Fang
